import Mathlib

/-!
Shallow embedding of `src/src/controllers/mjc3/mjc3_joystick_mex.cpp`:
a MATLAB MEX interface giving direct HID access to the Thorlabs MJC3
joystick.  The HID transport library (hidapi) is external; its behaviour
is modelled by an environment record `HidEnv` whose fields give the
results the transport calls would return.  The MEX globals `g_device`
and `g_initialized` form the state `MexState`; `mexErrMsgIdAndTxt`
(which aborts the invocation) is modelled by the `MexOutcome.err`
constructor, and MATLAB values handed to / returned from the MEX entry
point are modelled by `MxValue` / `MexResult`.
-/

namespace MJC3

/-- `const unsigned short MJC3_VID = 0x1313`. -/
def MJC3_VID : Nat := 0x1313

/-- `const unsigned short MJC3_PID = 0x9000`. -/
def MJC3_PID : Nat := 0x9000

/-- `const int REPORT_SIZE = 5`. -/
def REPORT_SIZE : Nat := 5

/-- Behaviour of the external hidapi transport during one MEX invocation:
`initOk` is whether `hid_init()` returns 0; `openHandle` is the handle
`hid_open(MJC3_VID, MJC3_PID, nullptr)` returns (`none` = null); for a
given timeout argument, `readResult` is what `hid_read_timeout` returns
and `deviceBytes` the bytes it would deliver; `mfgOk`, `prodOk`,
`serialOk` are whether the three descriptor-string queries return 0
(success). -/
structure HidEnv where
  initOk : Bool
  openHandle : Option Nat
  readResult : Int → Int
  deviceBytes : Int → Fin 5 → Nat
  mfgOk : Bool
  prodOk : Bool
  serialOk : Bool

/-- The two file-scope globals of the MEX module:
`static hid_device* g_device` (a handle or null) and
`static bool g_initialized`. -/
structure MexState where
  g_device : Option Nat
  g_initialized : Bool
deriving DecidableEq, Repr

/-- Both globals start cleared: `g_device = nullptr`, `g_initialized = false`. -/
def initialState : MexState := ⟨none, false⟩

/-- `initializeDevice()`: returns true if already initialized with a live
handle; otherwise runs `hid_init` (failure leaves the state unchanged and
returns false), then `hid_open` (the result is assigned to `g_device`;
on null the library is shut down again and false returned), and on
success sets non-blocking mode, sets `g_initialized`, and returns true. -/
def initializeDevice (env : HidEnv) (s : MexState) : Bool × MexState :=
  if s.g_initialized = true ∧ s.g_device.isSome then
    (true, s)
  else if env.initOk = false then
    (false, s)
  else
    match env.openHandle with
    | none => (false, { s with g_device := none })
    | some h => (true, { s with g_device := some h, g_initialized := true })

/-- `cleanupDevice()`: if `g_device` is non-null, `hid_close` it and null
it; if `g_initialized`, `hid_exit` and clear the flag. -/
def cleanupDevice (s : MexState) : MexState :=
  let s1 := if s.g_device.isSome then { s with g_device := none } else s
  if s1.g_initialized = true then { s1 with g_initialized := false } else s1

/-- Contents of the caller's zero-initialized 5-byte buffer after
`hid_read_timeout(g_device, buffer, REPORT_SIZE, t)` returned
`readResult t`: the first `readResult t` bytes come from the device
(each an `unsigned char`, hence reduced mod 256), the rest keep their
zero initialization. -/
def hidReadBuffer (env : HidEnv) (t : Int) (i : Fin 5) : Nat :=
  if (i : Nat) < env.readResult t then env.deviceBytes t i % 256 else 0

/-- The classification `readJoystickData` applies to the
`hid_read_timeout` result: a negative result warns (`MJC3:ReadError`)
and returns false, a zero result (timeout, no data) returns false, and
any positive result returns true.  The returned triple is
(success flag, buffer contents, state). -/
def readClassify (env : HidEnv) (t : Int) (s1 : MexState) :
    Bool × (Fin 5 → Nat) × MexState :=
  if env.readResult t < 0 then (false, hidReadBuffer env t, s1)
  else if env.readResult t = 0 then (false, hidReadBuffer env t, s1)
  else (true, hidReadBuffer env t, s1)

/-- `readJoystickData(buffer, timeout_ms)`: if `g_device` is null, try
`initializeDevice` (failure returns false with the buffer untouched,
i.e. still zero).  Then one `hid_read_timeout` call, classified by
`readClassify`. -/
def readJoystickData (env : HidEnv) (t : Int) (s : MexState) :
    Bool × (Fin 5 → Nat) × MexState :=
  if s.g_device.isSome = true then
    readClassify env t s
  else if (initializeDevice env s).1 = false then
    (false, fun _ => 0, (initializeDevice env s).2)
  else
    readClassify env t (initializeDevice env s).2

/-- The MATLAB struct built by `getDeviceInfo`: `mxCreateStructMatrix`
creates all six fields holding the empty array; `mxSetField` replaces a
field's value.  `none` models a field left at its empty initial value. -/
structure DeviceInfoStruct where
  connected : Option Bool
  vendor_id : Option Nat
  product_id : Option Nat
  manufacturer : Option String
  product : Option String
  serial_number : Option String
deriving DecidableEq, Repr

/-- The struct right after `mxCreateStructMatrix(1, 1, 6, field_names)`:
every field present but empty. -/
def emptyInfo : DeviceInfoStruct := ⟨none, none, none, none, none, none⟩

/-- The manufacturer block of `getDeviceInfo`: the field is assigned
the fixed string exactly when `hid_get_manufacturer_string` returns 0
(i.e. succeeds); on a non-zero (failed) query it is left untouched. -/
def setManufacturer (env : HidEnv) (d : DeviceInfoStruct) : DeviceInfoStruct :=
  if env.mfgOk = true then { d with manufacturer := some "Thorlabs" } else d

/-- The product block of `getDeviceInfo` (same shape as the
manufacturer block). -/
def setProduct (env : HidEnv) (d : DeviceInfoStruct) : DeviceInfoStruct :=
  if env.prodOk = true then { d with product := some "MJC3 Joystick" } else d

/-- The serial-number block of `getDeviceInfo` (same shape as the
manufacturer block). -/
def setSerial (env : HidEnv) (d : DeviceInfoStruct) : DeviceInfoStruct :=
  if env.serialOk = true then { d with serial_number := some "Unknown" } else d

/-- The three descriptor-string blocks of `getDeviceInfo`, in source
order. -/
def fillDeviceStrings (env : HidEnv) (d : DeviceInfoStruct) : DeviceInfoStruct :=
  setSerial env (setProduct env (setManufacturer env d))

/-- The struct `getDeviceInfo` builds once the device is (or has just
been) opened: `connected = true`, the two constant ids, then the
descriptor-string blocks. -/
def connectedInfo (env : HidEnv) : DeviceInfoStruct :=
  fillDeviceStrings env
    { emptyInfo with
      connected := some true
      vendor_id := some MJC3_VID
      product_id := some MJC3_PID }

/-- `getDeviceInfo()`: if `g_device` is null and `initializeDevice`
fails, set only `connected = false` and return; otherwise build
`connectedInfo`. -/
def getDeviceInfo (env : HidEnv) (s : MexState) : DeviceInfoStruct × MexState :=
  if s.g_device.isSome = true then
    (connectedInfo env, s)
  else if (initializeDevice env s).1 = false then
    ({ emptyInfo with connected := some false }, (initializeDevice env s).2)
  else
    (connectedInfo env, (initializeDevice env s).2)

/-- A MATLAB value handed to the MEX entry point: a char array, a
numeric scalar, or anything else. -/
inductive MxValue where
  | str : String → MxValue
  | num : Int → MxValue
  | other : MxValue
deriving DecidableEq, Repr

/-- `mxIsChar`. -/
def mxIsChar : MxValue → Bool
  | .str _ => true
  | _ => false

/-- `mxIsNumeric`. -/
def mxIsNumeric : MxValue → Bool
  | .num _ => true
  | _ => false

/-- A value placed in `plhs[0]` by the MEX entry point. -/
inductive MexResult where
  | matrix : List Int → MexResult
  | emptyMatrix : MexResult
  | infoStruct : DeviceInfoStruct → MexResult
  | logicalTrue : MexResult
  | noOutput : MexResult
deriving DecidableEq, Repr

/-- Outcome of one MEX invocation: a normal return with an output value,
or a hard failure via `mexErrMsgIdAndTxt` (which raises a MATLAB error
and aborts the invocation).  Both carry the global state afterwards. -/
inductive MexOutcome where
  | ok : MexResult → MexState → MexOutcome
  | err : String → MexState → MexOutcome
deriving DecidableEq, Repr

/-- The global state after an invocation. -/
def MexOutcome.state : MexOutcome → MexState
  | .ok _ s => s
  | .err _ s => s

/-- Whether the invocation ended in a hard failure. -/
def MexOutcome.isErr : MexOutcome → Bool
  | .ok _ _ => false
  | .err _ _ => true

/-- `(int8_t)b` for an `unsigned char` value `b`: reinterpret the low 8
bits as a signed twos-complement integer. -/
def toInt8 (b : Nat) : Int :=
  if b % 256 < 128 then ((b % 256 : Nat) : Int) else ((b % 256 : Nat) : Int) - 256

/-- The `read` branch's output conversion: bytes 0..2 through
`(int8_t)`, bytes 3 and 4 taken unsigned. -/
def decodeBuffer (buf : Fin 5 → Nat) : List Int :=
  [toInt8 (buf 0), toInt8 (buf 1), toInt8 (buf 2),
   ((buf 3 : Nat) : Int), ((buf 4 : Nat) : Int)]

/-- The timeout the `read` branch passes to `readJoystickData`:
`prhs[1]` if present and numeric, else the default 100 ms. -/
def readTimeoutOf (rest : List MxValue) : Int :=
  match rest with
  | .num t :: _ => t
  | _ => 100

/-- The `read` branch of `mexFunction`: on a successful
`readJoystickData` the five converted values are placed in `plhs[0]`;
on failure or timeout an empty 0x0 matrix is. -/
def readBranch (env : HidEnv) (t : Int) (s : MexState) : MexOutcome :=
  if (readJoystickData env t s).1 = true then
    .ok (.matrix (decodeBuffer (readJoystickData env t s).2.1))
      (readJoystickData env t s).2.2
  else
    .ok .emptyMatrix (readJoystickData env t s).2.2

/-- The `strcmp` chain of `mexFunction`: the four commands in source
order, any other string raising `MJC3:InvalidCommand`.  In the `close`
branch the logical `true` is placed in `plhs[0]` only when an output
was requested (`nlhs > 0`). -/
def dispatchCommand (env : HidEnv) (nlhs : Nat) (command : String)
    (rest : List MxValue) (s : MexState) : MexOutcome :=
  if command = "read" then
    readBranch env (readTimeoutOf rest) s
  else if command = "info" then
    .ok (.infoStruct (getDeviceInfo env s).1) (getDeviceInfo env s).2
  else if command = "test" then
    .ok .logicalTrue s
  else if command = "close" then
    if nlhs > 0 then .ok .logicalTrue (cleanupDevice s)
    else .ok .noOutput (cleanupDevice s)
  else
    .err "MJC3:InvalidCommand" s

/-- `mexFunction(nlhs, plhs, nrhs, prhs)`: `nrhs < 1` or a non-char
`prhs[0]` raises `MJC3:InvalidInput`; otherwise the command string is
extracted and dispatched. -/
def mexFunction (env : HidEnv) (nlhs : Nat) (prhs : List MxValue) (s : MexState) :
    MexOutcome :=
  match prhs with
  | [] => .err "MJC3:InvalidInput" s
  | .str command :: rest => dispatchCommand env nlhs command rest s
  | _ :: _ => .err "MJC3:InvalidInput" s

/-- The session invariant of the spec's Device Session:
`g_initialized` is true exactly when `g_device` holds a live handle. -/
def Inv (s : MexState) : Prop := s.g_initialized = true ↔ s.g_device.isSome = true

/-- A state with the device open: a live handle and the flag set. -/
def openState : MexState := ⟨some 0, true⟩

/-- The raw report of the spec's decoding test vector:
bytes 0x81, 0x7F, 0x00, 0x01, 0xFF. -/
def sampleReport : Fin 5 → Nat
  | 0 => 0x81
  | 1 => 0x7F
  | 2 => 0x00
  | 3 => 0x01
  | 4 => 0xFF

/-- Transport behaviour: everything succeeds and a full 5-byte report
equal to `sampleReport` arrives within any timeout. -/
def envSample : HidEnv :=
  ⟨true, some 0, fun _ => 5, fun _ => sampleReport, true, true, true⟩

/-- Transport behaviour: a short read of 3 bytes (first three bytes of
`sampleReport` delivered, return value 3). -/
def envShortRead : HidEnv :=
  ⟨true, some 0, fun _ => 3, fun _ => sampleReport, true, true, true⟩

/-- Transport behaviour: `hid_read_timeout` fails with -1. -/
def envReadError : HidEnv :=
  ⟨true, some 0, fun _ => -1, fun _ => sampleReport, true, true, true⟩

/-- Transport behaviour: `hid_read_timeout` times out (returns 0). -/
def envTimeout : HidEnv :=
  ⟨true, some 0, fun _ => 0, fun _ => sampleReport, true, true, true⟩

/-- Transport behaviour: the device is absent (`hid_open` returns null). -/
def envOpenFail : HidEnv :=
  ⟨true, none, fun _ => 0, fun _ => sampleReport, true, true, true⟩

/-- Transport behaviour: the device opens but all three
descriptor-string queries fail (return non-zero). -/
def envQueryFail : HidEnv :=
  ⟨true, some 0, fun _ => 5, fun _ => sampleReport, false, false, false⟩

/-- With a live handle, `readJoystickData` skips the open step and just
classifies the transport result, leaving the state untouched. -/
theorem readJoystickData_open (env : HidEnv) (t : Int) (s : MexState)
    (hdev : s.g_device.isSome = true) :
    readJoystickData env t s = readClassify env t s := by
  unfold readJoystickData
  rw [hdev]
  simp

/-- The classification step never touches the session state. -/
theorem readClassify_state (env : HidEnv) (t : Int) (s1 : MexState) :
    (readClassify env t s1).2.2 = s1 := by
  unfold readClassify
  split
  · rfl
  · split <;> rfl

/-- `cleanupDevice` always lands in the fully cleared state. -/
theorem cleanupDevice_eq (s : MexState) : cleanupDevice s = initialState := by
  rcases s with ⟨d, i⟩
  cases d <;> cases i <;> rfl

/-- The state `readJoystickData` leaves behind is the state of its open
step; the classification passes it through unchanged. -/
theorem readJoystickData_state (env : HidEnv) (t : Int) (s : MexState) :
    (readJoystickData env t s).2.2 =
      if s.g_device.isSome = true then s else (initializeDevice env s).2 := by
  unfold readJoystickData
  split
  · rw [readClassify_state]
  · split
    · rfl
    · rw [readClassify_state]

/-- The state `getDeviceInfo` leaves behind is the state of its open
step. -/
theorem getDeviceInfo_state (env : HidEnv) (s : MexState) :
    (getDeviceInfo env s).2 =
      if s.g_device.isSome = true then s else (initializeDevice env s).2 := by
  unfold getDeviceInfo
  split
  · rfl
  · split <;> rfl

/-- The `read` branch never raises, and its final state is the one
`readJoystickData` left behind. -/
theorem readBranch_state (env : HidEnv) (t : Int) (s : MexState) :
    (readBranch env t s).state = (readJoystickData env t s).2.2 ∧
    (readBranch env t s).isErr = false := by
  unfold readBranch
  split <;> exact ⟨rfl, rfl⟩

/-- The invariant holds in the cleared start state. -/
theorem Inv_initialState : Inv initialState := by
  simp [Inv, initialState]

/-- `initializeDevice` from a state satisfying the session invariant:
the invariant is preserved, success leaves both globals set, and
failure leaves both cleared. -/
theorem initializeDevice_cases (env : HidEnv) (s : MexState) (hs : Inv s) :
    Inv (initializeDevice env s).2 ∧
    ((initializeDevice env s).1 = true →
      (initializeDevice env s).2.g_device.isSome = true ∧
      (initializeDevice env s).2.g_initialized = true) ∧
    ((initializeDevice env s).1 = false →
      (initializeDevice env s).2.g_device = none ∧
      (initializeDevice env s).2.g_initialized = false) := by
  rcases s with ⟨d, i⟩
  cases d <;> cases i
  · cases hI : env.initOk
    · simp [initializeDevice, hI, Inv]
    · cases hO : env.openHandle <;> simp [initializeDevice, hI, hO, Inv]
  · simp [Inv] at hs
  · simp [Inv] at hs
  · simp [initializeDevice, Inv]

/-- The state after the lazy-open step satisfies the invariant. -/
theorem inv_after_open_step (env : HidEnv) (s : MexState) (hs : Inv s) :
    Inv (if s.g_device.isSome = true then s else (initializeDevice env s).2) := by
  split
  · exact hs
  · exact (initializeDevice_cases env s hs).1

/-- Every MEX invocation preserves the session invariant. -/
theorem mexFunction_inv (env : HidEnv) (nlhs : Nat) (prhs : List MxValue)
    (s : MexState) (hs : Inv s) : Inv (mexFunction env nlhs prhs s).state := by
  cases prhs with
  | nil => exact hs
  | cons arg0 rest =>
    cases arg0 with
    | num n => exact hs
    | other => exact hs
    | str command =>
      show Inv (dispatchCommand env nlhs command rest s).state
      unfold dispatchCommand
      split
      · rw [(readBranch_state env (readTimeoutOf rest) s).1,
          readJoystickData_state]
        exact inv_after_open_step env s hs
      · split
        · show Inv (getDeviceInfo env s).2
          rw [getDeviceInfo_state]
          exact inv_after_open_step env s hs
        · split
          · exact hs
          · split
            · split
              · show Inv (cleanupDevice s)
                rw [cleanupDevice_eq]
                exact Inv_initialState
              · show Inv (cleanupDevice s)
                rw [cleanupDevice_eq]
                exact Inv_initialState
            · exact hs

/-- `setManufacturer` only ever writes the manufacturer field. -/
theorem setManufacturer_frame (env : HidEnv) (d : DeviceInfoStruct) :
    (setManufacturer env d).connected = d.connected ∧
    (setManufacturer env d).vendor_id = d.vendor_id ∧
    (setManufacturer env d).product_id = d.product_id := by
  unfold setManufacturer
  split <;> exact ⟨rfl, rfl, rfl⟩

/-- `setProduct` only ever writes the product field. -/
theorem setProduct_frame (env : HidEnv) (d : DeviceInfoStruct) :
    (setProduct env d).connected = d.connected ∧
    (setProduct env d).vendor_id = d.vendor_id ∧
    (setProduct env d).product_id = d.product_id := by
  unfold setProduct
  split <;> exact ⟨rfl, rfl, rfl⟩

/-- `setSerial` only ever writes the serial-number field. -/
theorem setSerial_frame (env : HidEnv) (d : DeviceInfoStruct) :
    (setSerial env d).connected = d.connected ∧
    (setSerial env d).vendor_id = d.vendor_id ∧
    (setSerial env d).product_id = d.product_id := by
  unfold setSerial
  split <;> exact ⟨rfl, rfl, rfl⟩

/-- The struct built for an opened device always carries
`connected = true` and the two constant ids, whatever the
descriptor-string queries do. -/
theorem connectedInfo_ids (env : HidEnv) :
    (connectedInfo env).connected = some true ∧
    (connectedInfo env).vendor_id = some MJC3_VID ∧
    (connectedInfo env).product_id = some MJC3_PID := by
  unfold connectedInfo fillDeviceStrings
  obtain ⟨h1, h2, h3⟩ :=
    setSerial_frame env (setProduct env (setManufacturer env
      { emptyInfo with
        connected := some true
        vendor_id := some MJC3_VID
        product_id := some MJC3_PID }))
  obtain ⟨h4, h5, h6⟩ :=
    setProduct_frame env (setManufacturer env
      { emptyInfo with
        connected := some true
        vendor_id := some MJC3_VID
        product_id := some MJC3_PID })
  obtain ⟨h7, h8, h9⟩ :=
    setManufacturer_frame env
      { emptyInfo with
        connected := some true
        vendor_id := some MJC3_VID
        product_id := some MJC3_PID }
  exact ⟨by rw [h1, h4, h7], by rw [h2, h5, h8], by rw [h3, h6, h9]⟩

/-- C1, counterexample: with a live handle and a transport read
returning 3 bytes (neither 0 nor 5), `readJoystickData` reports
success, and the read command returns the partially-filled raw buffer
decoded into a sample (its first three bytes from the device, the
last two still zero) — the outcome is not classified as an error. -/
theorem C1_counterexample :
    (readJoystickData envShortRead 100 openState).1 = true ∧
    mexFunction envShortRead 1 [MxValue.str "read"] openState =
      MexOutcome.ok (MexResult.matrix [-127, 127, 0, 0, 0]) openState := by
  exact ⟨rfl, by decide⟩

/-- C1, amended: with a live handle, any positive byte count from the
transport read — 1 through 4 included — is classified as a successful
read, and the buffer, zero beyond the bytes actually delivered, is
decoded into the sample returned to the caller; only negative and zero
counts are classified as failed reads. -/
theorem C1_positive_count_decoded (env : HidEnv) (s : MexState)
    (hdev : s.g_device.isSome = true)
    (hpos : 0 < env.readResult 100) :
    (readJoystickData env 100 s).1 = true ∧
    mexFunction env 1 [MxValue.str "read"] s =
      MexOutcome.ok (MexResult.matrix (decodeBuffer (hidReadBuffer env 100))) s ∧
    (∀ i : Fin 5, env.readResult 100 ≤ (i : Nat) → hidReadBuffer env 100 i = 0) := by
  have hclass : readJoystickData env 100 s = (true, hidReadBuffer env 100, s) := by
    rw [readJoystickData_open env 100 s hdev]
    unfold readClassify
    rw [if_neg (by omega), if_neg (by omega)]
  refine ⟨by rw [hclass], ?_, ?_⟩
  · show readBranch env 100 s = _
    unfold readBranch
    rw [hclass]
    rfl
  · intro i hi
    unfold hidReadBuffer
    rw [if_neg (by omega)]

/-- C1, amended, at a concrete input: the 3-byte short read. -/
theorem C1_positive_count_decoded_witness :
    (readJoystickData envShortRead 100 openState).1 = true ∧
    mexFunction envShortRead 1 [MxValue.str "read"] openState =
      MexOutcome.ok
        (MexResult.matrix (decodeBuffer (hidReadBuffer envShortRead 100)))
        openState ∧
    (∀ i : Fin 5, envShortRead.readResult 100 ≤ (i : Nat) →
      hidReadBuffer envShortRead 100 i = 0) :=
  C1_positive_count_decoded envShortRead openState rfl (by decide)

/-- C2: when the device is open and the transport delivers the full
5-byte report 0x81 7F 00 01 FF, the read command returns exactly
[-127, 127, 0, 1, 255]: bytes 0-2 reinterpreted as signed
twos-complement 8-bit integers, bytes 3-4 unsigned. -/
theorem C2_decode_sample (env : HidEnv) (s : MexState)
    (hdev : s.g_device.isSome = true)
    (hr : env.readResult 100 = 5)
    (hb : ∀ i : Fin 5, env.deviceBytes 100 i = sampleReport i) :
    mexFunction env 1 [MxValue.str "read"] s =
      MexOutcome.ok (MexResult.matrix [-127, 127, 0, 1, 255]) s := by
  have hbuf : ∀ i : Fin 5, hidReadBuffer env 100 i = sampleReport i := by
    intro i
    unfold hidReadBuffer
    rw [hr, hb i, if_pos (by exact_mod_cast i.isLt)]
    fin_cases i <;> rfl
  have hclass : readJoystickData env 100 s = (true, hidReadBuffer env 100, s) := by
    rw [readJoystickData_open env 100 s hdev]
    unfold readClassify
    rw [if_neg (by omega), if_neg (by omega)]
  show readBranch env 100 s = _
  unfold readBranch
  rw [hclass]
  show MexOutcome.ok (MexResult.matrix (decodeBuffer (hidReadBuffer env 100))) s = _
  unfold decodeBuffer
  rw [hbuf 0, hbuf 1, hbuf 2, hbuf 3, hbuf 4]
  exact congrArg (fun l => MexOutcome.ok (MexResult.matrix l) s) (by decide)

/-- C2 at the concrete transport behaviour delivering that report. -/
theorem C2_decode_sample_witness :
    mexFunction envSample 1 [MxValue.str "read"] openState =
      MexOutcome.ok (MexResult.matrix [-127, 127, 0, 1, 255]) openState :=
  C2_decode_sample envSample openState rfl rfl (fun _ => rfl)

/-- C3: code behaviour at the failing input.  With the device open and
every descriptor-string query failing (non-zero return), the struct's
manufacturer, product and serial-number fields are left empty rather
than set to the fixed fallback strings; the fixed strings are written
exactly when the queries succeed (return 0). -/
theorem C3_descriptor_query_failure :
    (getDeviceInfo envQueryFail openState).1.connected = some true ∧
    (getDeviceInfo envQueryFail openState).1.manufacturer = none ∧
    (getDeviceInfo envQueryFail openState).1.product = none ∧
    (getDeviceInfo envQueryFail openState).1.serial_number = none ∧
    (getDeviceInfo envSample openState).1.manufacturer = some "Thorlabs" ∧
    (getDeviceInfo envSample openState).1.product = some "MJC3 Joystick" ∧
    (getDeviceInfo envSample openState).1.serial_number = some "Unknown" :=
  ⟨rfl, rfl, rfl, rfl, rfl, rfl, rfl⟩

/-- C4, counterexample: when the device cannot be opened, the info
struct reports `connected = false` but its vendor_id and product_id
fields are left empty — the constant ids are not present. -/
theorem C4_counterexample :
    (getDeviceInfo envOpenFail initialState).1.connected = some false ∧
    (getDeviceInfo envOpenFail initialState).1.vendor_id = none ∧
    (getDeviceInfo envOpenFail initialState).1.product_id = none :=
  ⟨rfl, rfl, rfl⟩

/-- C4, amended: vendor_id = 0x1313 and product_id = 0x9000 are present
in every info result that reports `connected = true`; when the device
cannot be opened the result is exactly the struct whose only set field
is `connected = false`, the ids included among the empty fields. -/
theorem C4_ids_present_iff_connected (env : HidEnv) (s : MexState) :
    ((getDeviceInfo env s).1.connected = some true →
      (getDeviceInfo env s).1.vendor_id = some MJC3_VID ∧
      (getDeviceInfo env s).1.product_id = some MJC3_PID) ∧
    (s.g_device.isSome = false → (initializeDevice env s).1 = false →
      (getDeviceInfo env s).1 = { emptyInfo with connected := some false }) := by
  constructor
  · unfold getDeviceInfo
    split
    · intro hconn
      exact ⟨(connectedInfo_ids env).2.1, (connectedInfo_ids env).2.2⟩
    · split
      · intro hconn
        simp at hconn
      · intro hconn
        exact ⟨(connectedInfo_ids env).2.1, (connectedInfo_ids env).2.2⟩
  · intro hno hfail
    unfold getDeviceInfo
    rw [if_neg (by rw [hno]; exact Bool.false_ne_true), if_pos hfail]

/-- C4, amended, at concrete inputs: an open device and a failed open. -/
theorem C4_ids_present_iff_connected_witness :
    ((getDeviceInfo envOpenFail initialState).1.connected = some true →
      (getDeviceInfo envOpenFail initialState).1.vendor_id = some MJC3_VID ∧
      (getDeviceInfo envOpenFail initialState).1.product_id = some MJC3_PID) ∧
    (initialState.g_device.isSome = false →
      (initializeDevice envOpenFail initialState).1 = false →
      (getDeviceInfo envOpenFail initialState).1 =
        { emptyInfo with connected := some false }) :=
  C4_ids_present_iff_connected envOpenFail initialState

/-- C5: with a live handle, a transport error (negative read result)
and a timeout (zero read result) both make the read command return the
same empty matrix, and neither outcome is a hard failure raised to the
caller. -/
theorem C5_failure_outcomes_unified (env1 env2 : HidEnv) (s : MexState)
    (hdev : s.g_device.isSome = true)
    (herr : env1.readResult 100 < 0)
    (hnod : env2.readResult 100 = 0) :
    mexFunction env1 1 [MxValue.str "read"] s =
      MexOutcome.ok MexResult.emptyMatrix s ∧
    mexFunction env2 1 [MxValue.str "read"] s =
      mexFunction env1 1 [MxValue.str "read"] s ∧
    (mexFunction env1 1 [MxValue.str "read"] s).isErr = false ∧
    (mexFunction env2 1 [MxValue.str "read"] s).isErr = false := by
  have h1 : readJoystickData env1 100 s = (false, hidReadBuffer env1 100, s) := by
    rw [readJoystickData_open env1 100 s hdev]
    unfold readClassify
    rw [if_pos herr]
  have h2 : readJoystickData env2 100 s = (false, hidReadBuffer env2 100, s) := by
    rw [readJoystickData_open env2 100 s hdev]
    unfold readClassify
    rw [if_neg (by omega), if_pos hnod]
  have g1 : mexFunction env1 1 [MxValue.str "read"] s =
      MexOutcome.ok MexResult.emptyMatrix s := by
    show readBranch env1 100 s = _
    unfold readBranch
    rw [h1]
    rfl
  have g2 : mexFunction env2 1 [MxValue.str "read"] s =
      MexOutcome.ok MexResult.emptyMatrix s := by
    show readBranch env2 100 s = _
    unfold readBranch
    rw [h2]
    rfl
  exact ⟨g1, by rw [g1, g2], by rw [g1]; rfl, by rw [g2]; rfl⟩

/-- C5 at concrete transport behaviours: a failed read and a timeout. -/
theorem C5_failure_outcomes_unified_witness :
    mexFunction envReadError 1 [MxValue.str "read"] openState =
      MexOutcome.ok MexResult.emptyMatrix openState ∧
    mexFunction envTimeout 1 [MxValue.str "read"] openState =
      mexFunction envReadError 1 [MxValue.str "read"] openState ∧
    (mexFunction envReadError 1 [MxValue.str "read"] openState).isErr = false ∧
    (mexFunction envTimeout 1 [MxValue.str "read"] openState).isErr = false :=
  C5_failure_outcomes_unified envReadError envTimeout openState rfl (by decide) rfl

/-- C6: close is idempotent and total: from any session state
`cleanupDevice` leaves the session closed, running it twice is the same
as once, and the close command always returns normally (with the
logical `true` output exactly when one is requested). -/
theorem C6_close_idempotent (env : HidEnv) (nlhs : Nat) (s : MexState) :
    (cleanupDevice s).g_device = none ∧
    (cleanupDevice s).g_initialized = false ∧
    cleanupDevice (cleanupDevice s) = cleanupDevice s ∧
    mexFunction env nlhs [MxValue.str "close"] s =
      MexOutcome.ok (if nlhs > 0 then MexResult.logicalTrue else MexResult.noOutput)
        (cleanupDevice s) ∧
    (mexFunction env nlhs [MxValue.str "close"] s).isErr = false := by
  have hm : mexFunction env nlhs [MxValue.str "close"] s =
      if nlhs > 0 then MexOutcome.ok MexResult.logicalTrue (cleanupDevice s)
      else MexOutcome.ok MexResult.noOutput (cleanupDevice s) := rfl
  refine ⟨by rw [cleanupDevice_eq]; rfl, by rw [cleanupDevice_eq]; rfl,
    by rw [cleanupDevice_eq s, cleanupDevice_eq], ?_, ?_⟩
  · rw [hm]
    by_cases h : nlhs > 0 <;> simp [h]
  · rw [hm]
    by_cases h : nlhs > 0 <;> simp [h, MexOutcome.isErr]

/-- C7: a command string outside the four known ones raises
`MJC3:InvalidCommand`; an empty argument list and a non-char first
argument raise `MJC3:InvalidInput`.  None of them returns a silent
empty result. -/
theorem C7_invalid_dispatch (env : HidEnv) (nlhs : Nat) (s : MexState)
    (cmd : String) (rest rest2 : List MxValue) (v : MxValue)
    (hread : cmd ≠ "read") (hinfo : cmd ≠ "info")
    (htest : cmd ≠ "test") (hclose : cmd ≠ "close")
    (hv : mxIsChar v = false) :
    mexFunction env nlhs (MxValue.str cmd :: rest) s =
      MexOutcome.err "MJC3:InvalidCommand" s ∧
    mexFunction env nlhs [] s = MexOutcome.err "MJC3:InvalidInput" s ∧
    mexFunction env nlhs (v :: rest2) s = MexOutcome.err "MJC3:InvalidInput" s := by
  refine ⟨?_, rfl, ?_⟩
  · show dispatchCommand env nlhs cmd rest s = _
    unfold dispatchCommand
    rw [if_neg hread, if_neg hinfo, if_neg htest, if_neg hclose]
  · cases v with
    | str s2 => simp [mxIsChar] at hv
    | num n => rfl
    | other => rfl

/-- C7 at concrete inputs: the command "bogus" and a numeric first
argument. -/
theorem C7_invalid_dispatch_witness :
    mexFunction envSample 1 (MxValue.str "bogus" :: []) openState =
      MexOutcome.err "MJC3:InvalidCommand" openState ∧
    mexFunction envSample 1 [] openState =
      MexOutcome.err "MJC3:InvalidInput" openState ∧
    mexFunction envSample 1 (MxValue.num 7 :: []) openState =
      MexOutcome.err "MJC3:InvalidInput" openState :=
  C7_invalid_dispatch envSample 1 openState "bogus" [] [] (MxValue.num 7)
    (by decide) (by decide) (by decide) (by decide) rfl

/-- C8: the session invariant — `g_initialized` is true iff `g_device`
is a live handle — holds in the start state and is preserved by every
operation: a successful open sets both, a failed open leaves both
cleared, close clears both, and every MEX invocation maps an invariant
state to an invariant state. -/
theorem C8_session_invariant (env : HidEnv) (s : MexState) (hs : Inv s) :
    Inv initialState ∧
    Inv (initializeDevice env s).2 ∧
    ((initializeDevice env s).1 = true →
      (initializeDevice env s).2.g_device.isSome = true ∧
      (initializeDevice env s).2.g_initialized = true) ∧
    ((initializeDevice env s).1 = false →
      (initializeDevice env s).2.g_device = none ∧
      (initializeDevice env s).2.g_initialized = false) ∧
    (cleanupDevice s).g_device = none ∧
    (cleanupDevice s).g_initialized = false ∧
    ∀ nlhs prhs, Inv (mexFunction env nlhs prhs s).state := by
  obtain ⟨hinv, hsucc, hfail⟩ := initializeDevice_cases env s hs
  exact ⟨Inv_initialState, hinv, hsucc, hfail,
    by rw [cleanupDevice_eq]; rfl, by rw [cleanupDevice_eq]; rfl,
    fun nlhs prhs => mexFunction_inv env nlhs prhs s hs⟩

/-- C8 at a concrete input: the start state, which satisfies the
invariant. -/
theorem C8_session_invariant_witness :
    Inv initialState ∧
    Inv (initializeDevice envSample initialState).2 ∧
    ((initializeDevice envSample initialState).1 = true →
      (initializeDevice envSample initialState).2.g_device.isSome = true ∧
      (initializeDevice envSample initialState).2.g_initialized = true) ∧
    ((initializeDevice envSample initialState).1 = false →
      (initializeDevice envSample initialState).2.g_device = none ∧
      (initializeDevice envSample initialState).2.g_initialized = false) ∧
    (cleanupDevice initialState).g_device = none ∧
    (cleanupDevice initialState).g_initialized = false ∧
    ∀ nlhs prhs, Inv (mexFunction envSample nlhs prhs initialState).state :=
  C8_session_invariant envSample initialState (by simp [Inv, initialState])

/-- C9: when the transport read reports an error (negative result),
`readJoystickData` returns failure and leaves the session state — the
handle and the initialization flag — exactly as it was, so a later poll
retries the same handle. -/
theorem C9_read_error_frame (env : HidEnv) (t : Int) (s : MexState)
    (hdev : s.g_device.isSome = true)
    (herr : env.readResult t < 0) :
    readJoystickData env t s = (false, hidReadBuffer env t, s) ∧
    (readJoystickData env t s).2.2.g_device = s.g_device ∧
    (readJoystickData env t s).2.2.g_initialized = s.g_initialized := by
  have h : readJoystickData env t s = (false, hidReadBuffer env t, s) := by
    rw [readJoystickData_open env t s hdev]
    unfold readClassify
    rw [if_pos herr]
  exact ⟨h, by rw [h], by rw [h]⟩

/-- C9 at a concrete input: a failing transport read against an open
session. -/
theorem C9_read_error_frame_witness :
    readJoystickData envReadError 100 openState =
      (false, hidReadBuffer envReadError 100, openState) ∧
    (readJoystickData envReadError 100 openState).2.2.g_device =
      openState.g_device ∧
    (readJoystickData envReadError 100 openState).2.2.g_initialized =
      openState.g_initialized :=
  C9_read_error_frame envReadError 100 openState rfl (by decide)

/-- C10: a second argument to the read command that is present but not
numeric is silently ignored: no error is raised, the default 100 ms
timeout is used, and the invocation behaves exactly as with no second
argument. -/
theorem C10_nonnumeric_timeout_default (env : HidEnv) (nlhs : Nat) (s : MexState)
    (v : MxValue) (hv : mxIsNumeric v = false) :
    readTimeoutOf [v] = 100 ∧
    mexFunction env nlhs [MxValue.str "read", v] s =
      mexFunction env nlhs [MxValue.str "read"] s ∧
    (mexFunction env nlhs [MxValue.str "read", v] s).isErr = false := by
  have h100 : readTimeoutOf [v] = 100 := by
    cases v with
    | str s2 => rfl
    | num n => simp [mxIsNumeric] at hv
    | other => rfl
  have heq : mexFunction env nlhs [MxValue.str "read", v] s =
      readBranch env 100 s := by
    show dispatchCommand env nlhs "read" [v] s = _
    unfold dispatchCommand
    rw [if_pos rfl, h100]
  have heq2 : mexFunction env nlhs [MxValue.str "read"] s =
      readBranch env 100 s := rfl
  refine ⟨h100, by rw [heq, heq2], ?_⟩
  rw [heq]
  exact (readBranch_state env 100 s).2

/-- C10 at a concrete input: a non-numeric second argument. -/
theorem C10_nonnumeric_timeout_default_witness :
    readTimeoutOf [MxValue.other] = 100 ∧
    mexFunction envSample 1 [MxValue.str "read", MxValue.other] openState =
      mexFunction envSample 1 [MxValue.str "read"] openState ∧
    (mexFunction envSample 1 [MxValue.str "read", MxValue.other] openState).isErr =
      false :=
  C10_nonnumeric_timeout_default envSample 1 openState MxValue.other rfl

end MJC3
